import Mathlib

/-!
A shallow embedding of the swagen profile-orchestration core
(`commands/generate` in the repository) and of the code-assembly pattern in
`lib/generator/index.js`, with theorems checking the repository's
specification against it.

Modelling conventions:
* JavaScript optional string fields become `Option String`; JS truthiness of
  such a field is "present and non-empty".
* Thrown JS values become `Except JsError`; the distinct JS error classes
  (`Error`, `ReferenceError`, `TypeError`) are constructors of `JsError`.
* Side effects (logging, starting a file read, starting a network fetch,
  writing files, invoking plugin entry points) become explicit event traces.
* External collaborators (JSON.parse, the swagen-core Parser,
  JSON.stringify, module loading) are parameters bundled in an `Env`
  structure; the claims quantify over them.
* `process.cwd()` is the fixed abstract absolute directory `currentDir`, and
  `path.resolve` is modelled as: absolute paths are returned unchanged,
  relative ones are joined to the base with a separator.
-/

/-- The working directory captured at module load (`process.cwd()`).
Modelled as a fixed absolute path. -/
def currentDir : String := "/work"

/-- Character-wise test for the empty string (JS `!string` falsiness). -/
def strIsEmpty (s : String) : Bool := s.data.isEmpty

/-- Character-wise leading-substring test (JS/lodash `startsWith`). -/
def strStartsWith (s pre : String) : Bool := List.isPrefixOf pre.data s.data

/-- Character-wise trailing-substring test. -/
def strEndsWith (s post : String) : Bool := List.isSuffixOf post.data s.data

/-- Character-wise ASCII model of JS `toLowerCase`. -/
def lowerAscii (s : String) : String := ⟨List.map Char.toLower s.data⟩

/-- Model of node's `path.resolve(base, p)`: an absolute `p` wins, otherwise
`p` is appended to `base`. (Dot-segment normalization is not modelled; no
claim depends on it.) -/
def resolvePath (base p : String) : String :=
  if strStartsWith p "/" then p else base ++ "/" ++ p

/-- JS truthiness of an optional string field: an absent field and the empty
string are falsy, any other string is truthy. -/
def truthyStr : Option String → Bool
  | none => false
  | some s => !strIsEmpty s

/-- Thrown JavaScript values, as far as this core distinguishes them. -/
inductive JsError where
  /-- A `ReferenceError`, e.g. from evaluating an identifier that is not in
  scope under strict mode. -/
  | referenceError (message : String)
  /-- A `TypeError`, e.g. from reading a property of `undefined`. -/
  | typeError (message : String)
  /-- A plain `new Error(message)`. -/
  | errorMsg (message : String)
  /-- An opaque error thrown by an external collaborator. -/
  | foreign (message : String)
deriving DecidableEq, Repr

/-- The `SyntaxError` thrown by `JSON.parse`: `lineNumber` is an optional,
engine-dependent property, `message` is the standard message property. -/
structure SyntaxErr where
  lineNumber : Option Nat := none
  message : String := ""
deriving DecidableEq, Repr

/-- The recognized sub-field of a profile's `debug` object. -/
structure DebugOpts where
  definition : Option String := none
deriving DecidableEq, Repr

/-- One profile of the configuration. `transforms` and `options` are opaque
passthrough objects, so only their presence is modelled. -/
structure Profile where
  file : Option String := none
  url : Option String := none
  output : Option String := none
  generator : Option String := none
  skip : Bool := false
  debug : Option DebugOpts := none
  transforms : Option Unit := none
  options : Option Unit := none
deriving DecidableEq, Repr

/-- JS `\w` character class: ASCII letters, digits and underscore. -/
def isWordChar (c : Char) : Bool :=
  c.isAlpha || c.isDigit || c = '_'

/-- The reserved-name test `profile.generator.match(/^[\w\-]+-language$/i)`:
a string matches exactly when, after ASCII lowering, it ends in
`-language`, has a non-empty prefix before that suffix, and consists only
of word characters and hyphens. -/
def matchesLanguagePattern (s : String) : Bool :=
  strEndsWith (lowerAscii s) "-language" && decide (9 < s.length) &&
    s.toList.all fun c => isWordChar c || c = '-'

/-- The default-population tail of `verifyProfile` (lines 63-71 of the
source): each of `debug`, `transforms`, `options` is set to an empty object
when absent and kept otherwise. -/
def applyDefaults (p : Profile) : Profile :=
  { p with
    debug := some (p.debug.getD {}),
    transforms := some (p.transforms.getD ()),
    options := some (p.options.getD ()) }

/-- The check sequence of `verifyProfile(profile)`, in source order,
returning the first thrown value if any check fails. The source's parameter
list has no `profileKey`, yet every throw site builds its message from the
template literal `[${profileKey}] ...`; under strict mode evaluating that
free identifier throws `ReferenceError: profileKey is not defined` before
the `Error` object is even constructed, so each failing check produces that
`ReferenceError`. (Case mapping is modelled for ASCII, which covers JS
`toLowerCase` on the reserved names.) -/
def verifyChecks (profile : Profile) : Option JsError :=
  if !truthyStr profile.file && !truthyStr profile.url then
    some (.referenceError "profileKey is not defined")
  else if !truthyStr profile.output then
    some (.referenceError "profileKey is not defined")
  else if !truthyStr profile.generator then
    some (.referenceError "profileKey is not defined")
  else if lowerAscii (profile.generator.getD "") = "core" then
    some (.referenceError "profileKey is not defined")
  else if matchesLanguagePattern (profile.generator.getD "") then
    some (.referenceError "profileKey is not defined")
  else
    none

/-- `verifyProfile(profile)` from the source: the first failing check
throws, leaving the profile untouched; once all checks pass the three
default fields are populated in place. The returned `Profile` is the
(possibly mutated) profile object. -/
def verifyProfile (profile : Profile) : Except JsError Unit × Profile :=
  match verifyChecks profile with
  | some e => (.error e, profile)
  | none => (.ok (), applyDefaults profile)

/-- Modelled from the spec: the spec's `ConfigurationError` taxonomy entry
is a plain thrown `Error` whose message carries the profile key in a
leading bracketed tag together with a human-readable reason (the format the
throw sites of `verifyProfile` attempt to build). -/
def isConfigurationErrorFor (profileKey : String) : JsError → Bool
  | .errorMsg m => m.startsWith ("[" ++ profileKey ++ "]")
  | _ => false

/-- Observable actions of the synchronous phase of `processInputs`: console
output and the initiation of asynchronous I/O. -/
inductive SyncEvent where
  | logInfo (message : String)
  | startFileRead (path : String)
  | startUrlFetch (url : String)
deriving DecidableEq, Repr

/-- The synchronous part of `handleFileSwagger`: log the resolved input
path, then start the asynchronous `fs.readFile`. -/
def handleFileSwaggerSync (profile : Profile) (profileKey : String) : List SyncEvent :=
  let inputFilePath := resolvePath currentDir (profile.file.getD "undefined")
  [.logInfo ("[" ++ profileKey ++ "] Input swagger file : " ++ inputFilePath),
   .startFileRead inputFilePath]

/-- The synchronous part of `handleUrlSwagger`: log the URL, then start the
asynchronous `needle.get`. -/
def handleUrlSwaggerSync (profile : Profile) (profileKey : String) : List SyncEvent :=
  [.logInfo ("[" ++ profileKey ++ "] Input swagger URL : " ++ profile.url.getD "undefined"),
   .startUrlFetch (profile.url.getD "undefined")]

/-- One iteration of the `processInputs` loop body for the pair
`(profileKey, profile)`: the skip short-circuit, then `verifyProfile`
(whose throw aborts the iteration with no events), then dispatch on the
truthiness of `file`. Returns the outcome, the emitted events, and the
profile object as left by the iteration. -/
def processProfile (profileKey : String) (profile : Profile) :
    Except JsError Unit × List SyncEvent × Profile :=
  if profile.skip then (.ok (), [], profile)
  else
    match verifyProfile profile with
    | (.error e, p) => (.error e, [], p)
    | (.ok _, p) =>
      if truthyStr p.file then
        (.ok (), handleFileSwaggerSync p profileKey, p)
      else
        (.ok (), handleUrlSwaggerSync p profileKey, p)

/-- Result of the synchronous `processInputs` loop: the events emitted, the
configuration's profile objects after the loop (the `for..in` order of the
JS object is the association-list order here), and the exception that
escaped the loop, if any. An escaping exception ends the loop: profiles
after the throwing one are left untouched and emit no events. -/
structure SyncResult where
  events : List SyncEvent
  profiles : List (String × Profile)
  err : Option JsError
deriving DecidableEq, Repr

/-- `processInputs(config)` from the source: iterate the profiles in order;
there is no try/catch inside the loop, so the first exception aborts the
remaining iterations and escapes to the caller. -/
def processInputs : List (String × Profile) → SyncResult
  | [] => ⟨[], [], none⟩
  | (profileKey, profile) :: rest =>
    match processProfile profileKey profile with
    | (.error e, evs, p) => ⟨evs, (profileKey, p) :: rest, some e⟩
    | (.ok _, evs, p) =>
      let r := processInputs rest
      ⟨evs ++ r.events, (profileKey, p) :: r.profiles, r.err⟩

/-- How the exported command function disposes of an exception escaping
`processInputs`: its catch prints string throws through `cli.error` plus the
help command, and logs every other thrown value with `console.log`. -/
inductive TopOutcome where
  | completed
  | caughtString (message : String)
  | caughtObject (e : JsError)
deriving DecidableEq, Repr

/-- The profile-processing part of `module.exports`: run `processInputs`
under the try/catch. Values thrown out of `processInputs` are error objects,
never strings, so they land in the `console.log` branch. -/
def moduleExports (config : List (String × Profile)) : TopOutcome × SyncResult :=
  let r := processInputs config
  match r.err with
  | none => (.completed, r)
  | some e => (.caughtObject e, r)

/-- A raw swagger document as handed to `handleSwagger`: file reads produce
text, while the URL transport may already deliver a structured body. `J` is
the type of structured JSON values, kept abstract. -/
inductive RawDoc (J : Type) where
  | str (s : String)
  | obj (j : J)

/-- A resolved generator module: the required `generate(definition, profile)`
entry point (which may itself throw) and the optional `validateProfile`
hook. `D` is the abstract type of normalized definitions. -/
structure GeneratorPkg (D : Type) where
  validateProfile : Option (Profile → Except JsError Unit) := none
  generate : D → Profile → Except JsError String

/-- The external collaborators used by `handleSwagger`: `JSON.parse`
(throws only `SyntaxError`), the swagen-core `Parser` (construction plus
`parse()`, collapsed into one fallible map), `JSON.stringify(·, null, 4)`,
and `require` of a generator package. -/
structure Env (J D : Type) where
  jsonParse : String → Except SyntaxErr J
  parserParse : J → Except JsError D
  stringify : D → String
  requireGen : String → Except JsError (GeneratorPkg D)

/-- Observable actions of the asynchronous, per-profile phase
(`handleSwagger` and the read/fetch callbacks). The two `writeFileSync`
call sites are distinguished by their position in the source: the debug
definition dump and the artifact write. -/
inductive HEvent where
  | logError (message : String)
  | logDebug (message : String)
  | logInfo (message : String)
  | writeDebugDefinition (path : String) (content : String)
  | requireGenerator (request : String)
  | invokeValidateProfile
  | invokeGenerate
  | writeArtifact (path : String) (content : String)
deriving DecidableEq, Repr

/-- The module specifier `handleSwagger` passes to `require`: a
path-relative generator (per lodash `startsWith(generator, '.')`) resolves
against the working directory, anything else gets the `swagen-` package
prefix. An absent generator string-interpolates to `"undefined"`, for which
the lodash check is falsy, matching the prefix branch. -/
def generatorRequest (profile : Profile) : String :=
  let g := profile.generator.getD "undefined"
  if strStartsWith g "." then resolvePath currentDir g else "swagen-" ++ g

/-- The debug-definition dump step of `handleSwagger`: when
`profile.debug.definition` is truthy, serialize the definition to that path
and log it. -/
def debugDumpEvents {J D : Type} (env : Env J D) (dbg : DebugOpts) (definition : D)
    (profileKey : String) : List HEvent :=
  match dbg.definition with
  | some defnPath =>
    if strIsEmpty defnPath then []
    else
      [.writeDebugDefinition (resolvePath currentDir defnPath) (env.stringify definition),
       .logDebug ("[" ++ profileKey ++ "] Definition file written to " ++ defnPath ++ ".")]
  | none => []

/-- The tail of `handleSwagger` after the optional hook: call `generate`,
resolve the output path (note the source resolves the already-resolved path
a second time in the `writeFileSync` call), write the artifact verbatim and
log. An absent `output` would make `path.resolve` throw a `TypeError`.
`acc` is the event trace accumulated so far. -/
def runGenerate {D : Type} (pkg : GeneratorPkg D) (definition : D) (profile : Profile)
    (profileKey : String) (acc : List HEvent) : Except JsError Unit × List HEvent :=
  match pkg.generate definition profile with
  | .error e => (.error e, acc ++ [.invokeGenerate])
  | .ok output =>
    match profile.output with
    | none => (.error (.typeError "path must be a string"), acc ++ [.invokeGenerate])
    | some out =>
      let outputFilePath := resolvePath currentDir out
      (.ok (), acc ++
        [.invokeGenerate,
         .writeArtifact (resolvePath currentDir outputFilePath) output,
         .logInfo ("[" ++ profileKey ++ "] Code generated at " ++ outputFilePath ++ ".")])

/-- The generator-invocation step of `handleSwagger`: when the resolved
module exposes a `validateProfile` function it is called first, and a throw
from it escapes before `generate` is ever invoked. -/
def invokeGenerator {D : Type} (pkg : GeneratorPkg D) (definition : D) (profile : Profile)
    (profileKey : String) (acc : List HEvent) : Except JsError Unit × List HEvent :=
  match pkg.validateProfile with
  | some vf =>
    match vf profile with
    | .error e => (.error e, acc ++ [.invokeValidateProfile])
    | .ok _ =>
      runGenerate pkg definition profile profileKey (acc ++ [.invokeValidateProfile])
  | none => runGenerate pkg definition profile profileKey acc

/-- `handleSwagger` after the string-parse step, starting from the
swagen-core `Parser`: normalization, the optional debug dump, generator
resolution, hook, generation and artifact write. Exceptions from any of
these steps escape (there is no catch below the JSON.parse one); reading
`profile.debug.definition` on an absent `debug` object would itself be a
`TypeError`. -/
def handleSwaggerParsed {J D : Type} (env : Env J D) (j : J) (profile : Profile)
    (profileKey : String) : Except JsError Unit × List HEvent :=
  match env.parserParse j with
  | .error e => (.error e, [])
  | .ok definition =>
    match profile.debug with
    | none => (.error (.typeError "cannot read property definition of undefined"), [])
    | some dbg =>
      let acc := debugDumpEvents env dbg definition profileKey
      let req := generatorRequest profile
      match env.requireGen req with
      | .error e => (.error e, acc ++ [.requireGenerator req])
      | .ok pkg =>
        invokeGenerator pkg definition profile profileKey (acc ++ [.requireGenerator req])

/-- `handleSwagger(swagger, profile, profileKey)` from the source. A string
document goes through `JSON.parse` under the one try/catch of this
function: a parse failure logs the profile key and, when the error object
carries truthy `lineNumber`/`message` properties, those too, then returns
normally, processing nothing further for this profile. -/
def handleSwagger {J D : Type} (env : Env J D) (swagger : RawDoc J) (profile : Profile)
    (profileKey : String) : Except JsError Unit × List HEvent :=
  match swagger with
  | .str s =>
    match env.jsonParse s with
    | .error e =>
      (.ok (),
        [.logError ("Invalid swagger source for profile " ++ profileKey ++ ".")]
          ++ (match e.lineNumber with
              | some n => if n = 0 then [] else [.logError ("At line number " ++ toString n ++ ".")]
              | none => [])
          ++ (if strIsEmpty e.message then [] else [.logError e.message]))
    | .ok j => handleSwaggerParsed env j profile profileKey
  | .obj j => handleSwaggerParsed env j profile profileKey

/-- The callback `handleFileSwagger` registers with `fs.readFile`: a read
error is logged (naming the configured file, not the profile key) and the
profile's processing ends there; otherwise the text is handed to
`handleSwagger`. -/
def fileReadCallback {J D : Type} (env : Env J D) (profile : Profile) (profileKey : String)
    (result : Except String String) : Except JsError Unit × List HEvent :=
  match result with
  | .error err =>
    (.ok (),
      [.logError ("Cannot read swagger file " ++ profile.file.getD "undefined" ++ "."),
       .logError err])
  | .ok swagger => handleSwagger env (.str swagger) profile profileKey

/-- The callback `handleUrlSwagger` registers with `needle.get`: a transport
error is logged (naming the URL) and the profile's processing ends there;
otherwise the body is handed to `handleSwagger`. -/
def urlFetchCallback {J D : Type} (env : Env J D) (profile : Profile) (profileKey : String)
    (result : Except String (RawDoc J)) : Except JsError Unit × List HEvent :=
  match result with
  | .error err =>
    (.ok (),
      [.logError ("Cannot read swagger URL " ++ profile.url.getD "undefined" ++ "."),
       .logError err])
  | .ok body => handleSwagger env body profile profileKey

/-- The platform line terminator `os.EOL`, modelled as a line feed. -/
def newline : String := "\n"

/-- The line-sequence assembly of `lib/generator/index.js`. Modelled from
the spec: the sub-generator modules `generate-initial-code`,
`generate-services` and `generate-models` are not part of this source;
per the spec each only appends lines to the shared growable sequence (never
replacing or reordering prior entries), so each is modelled as a function
from the definition to the lines it appends. -/
def generatorIndexLines {D : Type}
    (generateInitialCode generateServices generateModels : D → List String)
    (definition : D) : List String :=
  let code := generateInitialCode definition
  let code := code ++ generateServices definition
  let code := code ++ [""]
  code ++ generateModels definition

/-- The exported assembler of `lib/generator/index.js`: the assembled line
sequence joined with the platform line terminator. -/
def generatorIndex {D : Type}
    (generateInitialCode generateServices generateModels : D → List String)
    (definition : D) : String :=
  String.intercalate newline
    (generatorIndexLines generateInitialCode generateServices generateModels definition)

/-- A concrete collaborator environment whose JSON.parse always fails with
line number 3, for exercising the parse-failure path on closed inputs. -/
def envParseFail : Env Unit Unit where
  jsonParse _ := .error { lineNumber := some 3, message := "Unexpected token" }
  parserParse _ := .ok ()
  stringify _ := "null"
  requireGen _ := .ok { generate := fun _ _ => .ok "generated-code" }

/-- A concrete collaborator environment in which every step succeeds and the
resolved generator has no `validateProfile` hook. -/
def envOk : Env Unit Unit where
  jsonParse _ := .ok ()
  parserParse _ := .ok ()
  stringify _ := "null"
  requireGen _ := .ok { generate := fun _ _ => .ok "generated-code" }

/-- A concrete collaborator environment whose resolved generator exposes a
`validateProfile` hook that always throws. -/
def envHookFail : Env Unit Unit where
  jsonParse _ := .ok ()
  parserParse _ := .ok ()
  stringify _ := "null"
  requireGen _ := .ok
    { validateProfile := some fun _ => .error (.foreign "profile rejected"),
      generate := fun _ _ => .ok "generated-code" }

/-- A concrete collaborator environment whose normalizer (swagen-core
Parser) always throws. -/
def envNormalizeFail : Env Unit Unit where
  jsonParse _ := .ok ()
  parserParse _ := .error (.foreign "cannot normalize")
  stringify _ := "null"
  requireGen _ := .ok { generate := fun _ _ => .ok "generated-code" }

/-! ## Helper lemmas -/

theorem applyDefaults_file (p : Profile) : (applyDefaults p).file = p.file := rfl

theorem applyDefaults_url (p : Profile) : (applyDefaults p).url = p.url := rfl

theorem verifyChecks_none_iff (p : Profile) :
    verifyChecks p = none ↔
      ((truthyStr p.file || truthyStr p.url) = true ∧ truthyStr p.output = true ∧
       truthyStr p.generator = true ∧ lowerAscii (p.generator.getD "") ≠ "core" ∧
       matchesLanguagePattern (p.generator.getD "") = false) := by
  unfold verifyChecks
  repeat' split
  all_goals simp_all
  cases hb : truthyStr p.file <;> simp_all

theorem verifyProfile_fst_error (p : Profile) (e : JsError)
    (h : verifyChecks p = some e) : (verifyProfile p).1 = .error e := by
  simp [verifyProfile, h]

theorem verifyProfile_snd_error (p : Profile) (e : JsError)
    (h : (verifyProfile p).1 = .error e) : (verifyProfile p).2 = p := by
  unfold verifyProfile at *
  cases hc : verifyChecks p <;> simp_all

theorem verifyProfile_ok (p : Profile) (h : (verifyProfile p).1 = .ok ()) :
    verifyChecks p = none ∧ (verifyProfile p).2 = applyDefaults p := by
  unfold verifyProfile at *
  cases hc : verifyChecks p <;> simp_all

theorem verifyProfile_checks_fail (p : Profile) (h : verifyChecks p ≠ none) :
    (verifyProfile p).1 = .error (.referenceError "profileKey is not defined")
    ∧ (verifyProfile p).2 = p := by
  have he : ∀ e, verifyChecks p = some e → e = .referenceError "profileKey is not defined" := by
    intro e hee
    unfold verifyChecks at hee
    repeat' split at hee
    all_goals simp_all
  cases hc : verifyChecks p with
  | none => exact absurd hc h
  | some e =>
    have := he e hc
    subst this
    simp [verifyProfile, hc]

theorem processProfile_skip (k : String) (p : Profile) (h : p.skip = true) :
    processProfile k p = (.ok (), [], p) := by
  simp [processProfile, h]

theorem processProfile_verify_error (k : String) (p : Profile) (e : JsError)
    (hs : p.skip = false) (hv : verifyChecks p = some e) :
    processProfile k p = (.error e, [], p) := by
  simp [processProfile, hs, verifyProfile, hv]

theorem processProfile_verify_ok (k : String) (p : Profile)
    (hs : p.skip = false) (hv : verifyChecks p = none) :
    processProfile k p =
      (.ok (),
       (if truthyStr p.file then handleFileSwaggerSync (applyDefaults p) k
        else handleUrlSwaggerSync (applyDefaults p) k),
       applyDefaults p) := by
  simp only [processProfile, hs, verifyProfile, hv, Bool.false_eq_true, if_false,
    applyDefaults_file]
  split <;> rfl

theorem processInputs_cons_error (k : String) (p : Profile) (rest : List (String × Profile))
    (e : JsError) (evs : List SyncEvent) (p' : Profile)
    (h : processProfile k p = (.error e, evs, p')) :
    processInputs ((k, p) :: rest) = ⟨evs, (k, p') :: rest, some e⟩ := by
  simp only [processInputs]
  rw [h]

theorem processInputs_cons_ok (k : String) (p : Profile) (rest : List (String × Profile))
    (u : Unit) (evs : List SyncEvent) (p' : Profile)
    (h : processProfile k p = (.ok u, evs, p')) :
    processInputs ((k, p) :: rest) =
      ⟨evs ++ (processInputs rest).events, (k, p') :: (processInputs rest).profiles,
       (processInputs rest).err⟩ := by
  simp only [processInputs]
  rw [h]

theorem processInputs_profiles_length (config : List (String × Profile)) :
    (processInputs config).profiles.length = config.length := by
  induction config with
  | nil => rfl
  | cons hd tl ih =>
    obtain ⟨k, p⟩ := hd
    cases hpp : processProfile k p with
    | mk fst rest =>
      obtain ⟨evs, p'⟩ := rest
      cases fst with
      | error e => rw [processInputs_cons_error k p tl e evs p' hpp]; simp
      | ok u => rw [processInputs_cons_ok k p tl u evs p' hpp]; simp [ih]

theorem processInputs_append (xs ys : List (String × Profile)) :
    processInputs (xs ++ ys) =
      ⟨(processInputs xs).events ++
         (if (processInputs xs).err = none then (processInputs ys).events else []),
       (processInputs xs).profiles ++
         (if (processInputs xs).err = none then (processInputs ys).profiles else ys),
       if (processInputs xs).err = none then (processInputs ys).err
       else (processInputs xs).err⟩ := by
  induction xs with
  | nil => simp [processInputs]
  | cons hd tl ih =>
    obtain ⟨k, p⟩ := hd
    rw [List.cons_append]
    cases hpp : processProfile k p with
    | mk fst rest =>
      obtain ⟨evs, p'⟩ := rest
      cases fst with
      | error e =>
        rw [processInputs_cons_error k p (tl ++ ys) e evs p' hpp,
          processInputs_cons_error k p tl e evs p' hpp]
        simp
      | ok u =>
        rw [processInputs_cons_ok k p (tl ++ ys) u evs p' hpp,
          processInputs_cons_ok k p tl u evs p' hpp, ih]
        simp [List.append_assoc]

/-! ## Claim theorems -/

/-- Claim C10: validation is atomic on the profile object: when any check
fails the profile object is left completely unmodified, and when every
check passes the three default fields are populated exactly once — each
becomes the empty object when absent and keeps its value otherwise, while
all other fields are untouched. -/
theorem c10_validation_atomic (p : Profile) :
    (∀ e, (verifyProfile p).1 = Except.error e → (verifyProfile p).2 = p)
    ∧ ((verifyProfile p).1 = Except.ok () →
        (verifyProfile p).2 =
          { p with
            debug := some (p.debug.getD {}),
            transforms := some (p.transforms.getD ()),
            options := some (p.options.getD ()) }) :=
  ⟨fun e he => verifyProfile_snd_error p e he, fun h => (verifyProfile_ok p h).2⟩

/-- Claim C10 witness: a passing profile gets exactly the three defaults, a
failing one (missing `output`) is returned unmodified. -/
theorem c10_validation_atomic_witness :
    (verifyProfile { url := some "http://u", output := some "o", generator := some "g" }).2
        = { url := some "http://u", output := some "o", generator := some "g",
            debug := some {}, transforms := some (), options := some () }
    ∧ (verifyProfile { file := some "a.json" }).2 = { file := some "a.json" } :=
  ⟨(c10_validation_atomic _).2 rfl,
   (c10_validation_atomic _).1 (.referenceError "profileKey is not defined") rfl⟩

/-- Claim C2 (code bug): a profile that fails validation (here: missing
`output`) does not produce a `ConfigurationError` carrying the profile key
(say `api`) and a reason; `verifyProfile` throws
`ReferenceError: profileKey is not defined`, because the message templates
of its throw sites reference `profileKey`, which is not among the
function's parameters. -/
theorem c2_validator_error_lacks_profile_key :
    (verifyProfile { file := some "petstore.json" }).1
        = Except.error (JsError.referenceError "profileKey is not defined")
    ∧ isConfigurationErrorFor "api"
        (JsError.referenceError "profileKey is not defined") = false :=
  ⟨rfl, rfl⟩

/-- Claim C5: a profile with `skip: true` is omitted from processing
entirely: the loop emits the same events and ends the same way as if the
profile were absent, the skipped profile object is not validated or
defaulted (it survives unmodified in place), and every other profile is
processed exactly as without it. -/
theorem c5_skip_omits_profile (xs : List (String × Profile)) (k : String) (p : Profile)
    (ys : List (String × Profile)) (hskip : p.skip = true) :
    (processInputs (xs ++ (k, p) :: ys)).events = (processInputs (xs ++ ys)).events
    ∧ (processInputs (xs ++ (k, p) :: ys)).err = (processInputs (xs ++ ys)).err
    ∧ (processInputs (xs ++ (k, p) :: ys)).profiles =
        ((processInputs (xs ++ ys)).profiles.take xs.length)
          ++ (k, p) :: ((processInputs (xs ++ ys)).profiles.drop xs.length) := by
  have hcons : processInputs ((k, p) :: ys) =
      ⟨(processInputs ys).events, (k, p) :: (processInputs ys).profiles,
       (processInputs ys).err⟩ := by
    have h := processInputs_cons_ok k p ys () [] p (processProfile_skip k p hskip)
    simpa using h
  have hlen : (processInputs xs).profiles.length = xs.length :=
    processInputs_profiles_length xs
  rw [processInputs_append xs ((k, p) :: ys), processInputs_append xs ys, hcons]
  refine ⟨rfl, rfl, ?_⟩
  rw [← hlen, List.take_left, List.drop_left]
  show (processInputs xs).profiles ++
      (if (processInputs xs).err = none then (k, p) :: (processInputs ys).profiles
       else (k, p) :: ys) = _
  congr 1
  split <;> rfl

/-- Claim C5 witness: skipping the middle profile of three leaves the
events of the other two unchanged. -/
theorem c5_skip_omits_profile_witness :
    (processInputs ([("a", { file := some "a.json", output := some "o.ts",
                             generator := some "g" })]
        ++ ("s", { url := some "http://u", skip := true })
          :: [("b", { url := some "http://b", output := some "o2.ts",
                      generator := some "g" })])).events
      = (processInputs ([("a", { file := some "a.json", output := some "o.ts",
                                 generator := some "g" })]
          ++ [("b", { url := some "http://b", output := some "o2.ts",
                      generator := some "g" })])).events :=
  (c5_skip_omits_profile
    [("a", { file := some "a.json", output := some "o.ts", generator := some "g" })]
    "s" { url := some "http://u", skip := true }
    [("b", { url := some "http://b", output := some "o2.ts", generator := some "g" })]
    rfl).1

/-- Claim C3 (counterexample): a profile missing both `file` and `url` does
make processing fail before I/O, but not with a `ConfigurationError`: the
escaping value is the `ReferenceError` produced by `verifyProfile`'s
out-of-scope `profileKey`, which carries no profile key. -/
theorem c3_error_not_configuration_error :
    (processInputs [("api", { output := some "o.ts",
                              generator := some "typescript" })]).err
        = some (JsError.referenceError "profileKey is not defined")
    ∧ isConfigurationErrorFor "api"
        (JsError.referenceError "profileKey is not defined") = false
    ∧ (processInputs [("api", { output := some "o.ts",
                                generator := some "typescript" })]).events = [] :=
  ⟨rfl, rfl, rfl⟩

/-- Claim C3 (amended): for every non-skipped profile with neither `file`
nor `url` set (truthy), processing fails before any I/O is attempted for
that profile — no file read and no network fetch is initiated — and on
every non-skipped profile the full check-then-default validation sequence
runs before any input resolution: an iteration that emits any I/O event
passed all checks and dispatches the defaulted profile object. The failure
value, however, is the `ReferenceError` of the `profileKey` slip rather
than the intended `ConfigurationError`. -/
theorem c3_fail_fast_before_io (xs ys : List (String × Profile)) (k : String)
    (p : Profile) (hskip : p.skip = false) (hfile : truthyStr p.file = false)
    (hurl : truthyStr p.url = false) :
    (verifyProfile p).1 = Except.error (JsError.referenceError "profileKey is not defined")
    ∧ (processInputs (xs ++ (k, p) :: ys)).events = (processInputs xs).events
    ∧ (∀ (k' : String) (q q' : Profile) (evs : List SyncEvent),
        processProfile k' q = (Except.ok (), evs, q') → evs ≠ [] →
          verifyChecks q = none ∧ q' = applyDefaults q) := by
  have hchk : verifyChecks p = some (.referenceError "profileKey is not defined") := by
    unfold verifyChecks
    rw [hfile, hurl]
    rfl
  have hpp := processProfile_verify_error k p _ hskip hchk
  refine ⟨verifyProfile_fst_error p _ hchk, ?_, ?_⟩
  · rw [processInputs_append xs ((k, p) :: ys),
      processInputs_cons_error k p ys _ [] p hpp]
    simp
  · intro k' q q' evs hq hne
    by_cases hs : q.skip = true
    · rw [processProfile_skip k' q hs] at hq
      simp at hq
      exact absurd hq.1 hne
    · have hs' : q.skip = false := by simpa using hs
      cases hvq : verifyChecks q with
      | some e =>
        rw [processProfile_verify_error k' q e hs' hvq] at hq
        simp at hq
      | none =>
        rw [processProfile_verify_ok k' q hs' hvq] at hq
        simp at hq
        exact ⟨rfl, hq.2.symm⟩

/-- Claim C3 witness: concrete instance of the amended fail-fast theorem. -/
theorem c3_fail_fast_before_io_witness :
    (processInputs ([("ok", { file := some "a.json", output := some "o.ts",
                              generator := some "g" })]
        ++ ("api", { output := some "o.ts", generator := some "typescript" })
          :: [("late", { file := some "c.json", output := some "o3.ts",
                         generator := some "g" })])).events
      = (processInputs [("ok", { file := some "a.json", output := some "o.ts",
                                 generator := some "g" })]).events :=
  (c3_fail_fast_before_io
    [("ok", { file := some "a.json", output := some "o.ts", generator := some "g" })]
    [("late", { file := some "c.json", output := some "o3.ts", generator := some "g" })]
    "api" { output := some "o.ts", generator := some "typescript" }
    rfl rfl rfl).2.1

/-- Claim C4: a profile whose `generator` case-insensitively equals `core`
or matches the reserved `<identifier>-language` pattern fails validation,
so generator resolution is never reached and no I/O — in particular no
network fetch for a URL-sourced profile — is initiated for it. -/
theorem c4_reserved_generator_fails (xs ys : List (String × Profile)) (k : String)
    (p : Profile) (g : String) (hskip : p.skip = false) (hg : p.generator = some g)
    (hres : lowerAscii g = "core" ∨ matchesLanguagePattern g = true) :
    (∃ e, (verifyProfile p).1 = Except.error e)
    ∧ (processInputs (xs ++ (k, p) :: ys)).events = (processInputs xs).events
    ∧ (processInputs [(k, p)]).events = [] := by
  have hchk : verifyChecks p ≠ none := by
    intro hnone
    rw [verifyChecks_none_iff] at hnone
    obtain ⟨-, -, -, hcore, hlang⟩ := hnone
    rw [hg] at hcore hlang
    simp only [Option.getD_some] at hcore hlang
    rcases hres with h | h
    · exact hcore h
    · rw [h] at hlang
      cases hlang
  cases hc : verifyChecks p with
  | none => exact absurd hc hchk
  | some e =>
    have hpp := processProfile_verify_error k p e hskip hc
    refine ⟨⟨e, verifyProfile_fst_error p e hc⟩, ?_, ?_⟩
    · rw [processInputs_append xs ((k, p) :: ys),
        processInputs_cons_error k p ys e [] p hpp]
      simp
    · rw [processInputs_cons_error k p [] e [] p hpp]

/-- Claim C4 witness: the URL-sourced profile with generator `core` emits
no event at all — the fetch is never attempted. -/
theorem c4_reserved_generator_fails_witness :
    (processInputs [("u", { url := some "https://x/doc.json", output := some "out.cs",
                            generator := some "core" })]).events = [] :=
  (c4_reserved_generator_fails [] [] "u"
    { url := some "https://x/doc.json", output := some "out.cs",
      generator := some "core" }
    "core" rfl rfl (Or.inl (by decide))).2.2

/-- Claim C1 (counterexample): in the configuration `[bad, good]`, where
`bad` fails validation (missing `output`) and `good` is well-formed, the
validation throw escapes the loop: no event at all is emitted — `good` is
never processed — and the exception is disposed of at invocation level by
the `console.log` branch, without the failing profile's name; whereas
`good` on its own would have started its file read. -/
theorem c1_failing_profile_stops_siblings :
    (processInputs [("bad", { file := some "a.json" }),
                    ("good", { file := some "b.json", output := some "out.ts",
                               generator := some "typescript" })]).events = []
    ∧ (moduleExports [("bad", { file := some "a.json" }),
                      ("good", { file := some "b.json", output := some "out.ts",
                                 generator := some "typescript" })]).1
        = TopOutcome.caughtObject (JsError.referenceError "profileKey is not defined")
    ∧ (processInputs [("good", { file := some "b.json", output := some "out.ts",
                                 generator := some "typescript" })]).events
        = [SyncEvent.logInfo "[good] Input swagger file : /work/b.json",
           SyncEvent.startFileRead "/work/b.json"] :=
  ⟨rfl, rfl, rfl⟩

/-- Claim C1 (amended): error isolation holds only for the asynchronous
failure domains of one profile: a file-read or URL-fetch error is caught in
that profile's callback and merely logged (naming the configured file or
URL, not the profile), and a JSON parse failure is caught inside
`handleSwagger` and logged with the profile key — in these cases the
callback returns normally and sibling profiles are unaffected. But a
validation failure escapes the synchronous dispatch loop, so profiles
listed after the failing one are never processed at all, and a
normalization failure (like generator resolution, generator validation,
generation and write failures) escapes the asynchronous callback uncaught
rather than being caught at the profile boundary. -/
theorem c1_profile_error_isolation {J D : Type} (env : Env J D) :
    (∀ (p : Profile) (k err : String),
        fileReadCallback env p k (.error err)
          = (Except.ok (),
             [HEvent.logError ("Cannot read swagger file " ++ p.file.getD "undefined" ++ "."),
              HEvent.logError err]))
    ∧ (∀ (p : Profile) (k err : String),
        urlFetchCallback env p k (.error err)
          = (Except.ok (),
             [HEvent.logError ("Cannot read swagger URL " ++ p.url.getD "undefined" ++ "."),
              HEvent.logError err]))
    ∧ (∀ (s : String) (p : Profile) (k : String) (e : SyntaxErr),
        env.jsonParse s = .error e → (handleSwagger env (.str s) p k).1 = Except.ok ())
    ∧ (∀ (xs ys : List (String × Profile)) (k : String) (p : Profile) (e : JsError),
        p.skip = false → verifyChecks p = some e →
          (processInputs (xs ++ (k, p) :: ys)).events = (processInputs xs).events)
    ∧ (∀ (j : J) (p : Profile) (k : String) (e : JsError),
        env.parserParse j = .error e →
          (handleSwagger env (.obj j) p k).1 = Except.error e) := by
  refine ⟨fun p k err => rfl, fun p k err => rfl, ?_, ?_, ?_⟩
  · intro s p k e he
    simp [handleSwagger, he]
  · intro xs ys k p e hskip hchk
    have hpp := processProfile_verify_error k p e hskip hchk
    rw [processInputs_append xs ((k, p) :: ys),
      processInputs_cons_error k p ys e [] p hpp]
    simp
  · intro j p k e he
    simp [handleSwagger, handleSwaggerParsed, he]

/-- Claim C1 witness: a file-read failure is absorbed in the profile's own
callback, and a parse failure leaves the callback returning normally. -/
theorem c1_profile_error_isolation_witness :
    fileReadCallback envParseFail { } "good" (Except.error "ENOENT")
        = (Except.ok (), [HEvent.logError "Cannot read swagger file undefined.",
                          HEvent.logError "ENOENT"])
    ∧ (handleSwagger envParseFail (RawDoc.str "oops") { } "good").1 = Except.ok () :=
  ⟨(c1_profile_error_isolation envParseFail).1 { } "good" "ENOENT",
   (c1_profile_error_isolation envParseFail).2.2.1 "oops" { } "good"
     { lineNumber := some 3, message := "Unexpected token" } rfl⟩

/-- Every event the parse-failure branch of `handleSwagger` emits is an
error log. -/
theorem handleSwagger_parse_failure_events {J D : Type} (env : Env J D) (s : String)
    (p : Profile) (k : String) (e : SyntaxErr) (hparse : env.jsonParse s = .error e)
    (ev : HEvent) (hev : ev ∈ (handleSwagger env (.str s) p k).2) :
    ∃ m, ev = HEvent.logError m := by
  simp only [handleSwagger, hparse] at hev
  rcases List.mem_append.1 hev with h | h
  · rcases List.mem_append.1 h with h' | h'
    · simp at h'
      exact ⟨_, h'⟩
    · cases hln : e.lineNumber with
      | none => rw [hln] at h'; simp at h'
      | some n =>
        rw [hln] at h'
        by_cases hn : n = 0
        · simp [hn] at h'
        · simp [hn] at h'
          exact ⟨_, h'⟩
  · by_cases hm : strIsEmpty e.message
    · simp [hm] at h
    · simp [hm] at h
      exact ⟨_, h⟩

/-- Claim C7: when a profile's resolved raw document is a string that does
not parse as JSON, the failure is logged with the profile key — plus the
line number and message when the error object carries truthy ones — and
only that profile's processing stops: the handler returns normally, no
artifact write happens, and no generator resolution or generation occurs
for it. -/
theorem c7_document_syntax_error_aborts {J D : Type} (env : Env J D) (s : String)
    (p : Profile) (k : String) (e : SyntaxErr) (hparse : env.jsonParse s = .error e) :
    (handleSwagger env (.str s) p k).1 = Except.ok ()
    ∧ (handleSwagger env (.str s) p k).2 =
        [HEvent.logError ("Invalid swagger source for profile " ++ k ++ ".")]
          ++ (match e.lineNumber with
              | some n =>
                if n = 0 then []
                else [HEvent.logError ("At line number " ++ toString n ++ ".")]
              | none => [])
          ++ (if strIsEmpty e.message then [] else [HEvent.logError e.message])
    ∧ (∀ path c, HEvent.writeArtifact path c ∉ (handleSwagger env (.str s) p k).2)
    ∧ (∀ r, HEvent.requireGenerator r ∉ (handleSwagger env (.str s) p k).2)
    ∧ HEvent.invokeGenerate ∉ (handleSwagger env (.str s) p k).2 := by
  refine ⟨by simp [handleSwagger, hparse], by simp [handleSwagger, hparse], ?_, ?_, ?_⟩
  · intro path c hmem
    obtain ⟨m, hm⟩ := handleSwagger_parse_failure_events env s p k e hparse _ hmem
    cases hm
  · intro r hmem
    obtain ⟨m, hm⟩ := handleSwagger_parse_failure_events env s p k e hparse _ hmem
    cases hm
  · intro hmem
    obtain ⟨m, hm⟩ := handleSwagger_parse_failure_events env s p k e hparse _ hmem
    cases hm

/-- Claim C7 witness: a concrete non-JSON document is absorbed with a
normal return. -/
theorem c7_document_syntax_error_aborts_witness :
    (handleSwagger envParseFail (RawDoc.str "not json") { file := some "a.json" }
        "api").1 = Except.ok () :=
  (c7_document_syntax_error_aborts envParseFail "not json" { file := some "a.json" }
    "api" { lineNumber := some 3, message := "Unexpected token" } rfl).1

/-- Claim C8 (counterexample): a valid profile carrying both input fields
whose `file` is the empty string: JS truthiness sends it down the URL
branch, so the URL fetch is started and no file read happens, contradicting
"the file source is used and the URL is never fetched" for every valid
profile with both fields present. -/
theorem c8_empty_file_falls_to_url :
    (verifyProfile { file := some "", url := some "http://u", output := some "o",
                     generator := some "g" }).1 = Except.ok ()
    ∧ (processProfile "k" { file := some "", url := some "http://u", output := some "o",
                            generator := some "g" }).2.1
        = [SyncEvent.logInfo "[k] Input swagger URL : http://u",
           SyncEvent.startUrlFetch "http://u"] :=
  ⟨rfl, rfl⟩

/-- Claim C8 (amended): for every valid non-skipped profile whose `file` is
present and non-empty, the file branch wins: the iteration starts exactly
the logged file read, regardless of `url`, and no URL fetch is initiated
for that profile. A present-but-empty `file` string instead falls through
to the URL branch. -/
theorem c8_file_precedence (k : String) (p : Profile) (f : String)
    (hskip : p.skip = false) (hok : verifyChecks p = none)
    (hf : p.file = some f) (hne : f ≠ "") :
    (processProfile k p).2.1
      = [SyncEvent.logInfo ("[" ++ k ++ "] Input swagger file : "
            ++ resolvePath currentDir f),
         SyncEvent.startFileRead (resolvePath currentDir f)]
    ∧ ∀ u, SyncEvent.startUrlFetch u ∉ (processProfile k p).2.1 := by
  have htruthy : truthyStr (some f) = true := by
    cases hfd : f.data with
    | nil => exact absurd (String.ext (hfd.trans rfl)) hne
    | cons a l => simp [truthyStr, strIsEmpty, hfd]
  rw [processProfile_verify_ok k p hskip hok]
  refine ⟨?_, ?_⟩
  · simp [hf, htruthy, handleFileSwaggerSync, applyDefaults_file]
  · intro u
    simp [hf, htruthy, handleFileSwaggerSync, applyDefaults_file]

/-- Claim C8 witness: with both `file` and `url` present and `file`
non-empty, the file read is dispatched. -/
theorem c8_file_precedence_witness :
    (processProfile "k" { file := some "petstore.json", url := some "http://u",
                          output := some "o", generator := some "g" }).2.1
      = [SyncEvent.logInfo ("[" ++ "k" ++ "] Input swagger file : "
            ++ resolvePath currentDir "petstore.json"),
         SyncEvent.startFileRead (resolvePath currentDir "petstore.json")] :=
  (c8_file_precedence "k"
    { file := some "petstore.json", url := some "http://u", output := some "o",
      generator := some "g" }
    "petstore.json" rfl rfl rfl (by decide)).1

/-- Every event of the debug-definition dump is a debug write or a debug
log. -/
theorem debugDumpEvents_shape {J D : Type} (env : Env J D) (dbg : DebugOpts) (d : D)
    (k : String) (ev : HEvent) (h : ev ∈ debugDumpEvents env dbg d k) :
    (∃ a b, ev = HEvent.writeDebugDefinition a b) ∨ (∃ m, ev = HEvent.logDebug m) := by
  unfold debugDumpEvents at h
  cases hd : dbg.definition with
  | none => rw [hd] at h; simp at h
  | some defnPath =>
    rw [hd] at h
    by_cases hempty : strIsEmpty defnPath
    · simp [hempty] at h
    · simp [hempty] at h
      rcases h with h | h
      · exact Or.inl ⟨_, _, h⟩
      · exact Or.inr ⟨_, h⟩

/-- Claim C9: for a resolved generator module, an exposed `validateProfile`
hook is invoked with the profile before `generate`: when the hook throws,
`generate` is never invoked and no artifact is written for the profile;
when the hook succeeds the trace continues after it; and when the hook is
absent, `generate(definition, profile)` is called directly, no hook
invocation appears, and its returned text is written verbatim to the
resolved output path (resolved twice, exactly as the source does). -/
theorem c9_generator_invoker_contract {J D : Type} (env : Env J D) (j : J) (p : Profile)
    (k : String) (defn : D) (pkg : GeneratorPkg D) (dbg : DebugOpts)
    (hparse : env.parserParse j = .ok defn) (hdbg : p.debug = some dbg)
    (hreq : env.requireGen (generatorRequest p) = .ok pkg) :
    (∀ vf e, pkg.validateProfile = some vf → vf p = .error e →
        (handleSwaggerParsed env j p k).1 = Except.error e
        ∧ HEvent.invokeGenerate ∉ (handleSwaggerParsed env j p k).2
        ∧ ∀ path c, HEvent.writeArtifact path c ∉ (handleSwaggerParsed env j p k).2)
    ∧ (∀ vf, pkg.validateProfile = some vf → vf p = .ok () →
        ∃ evs, (handleSwaggerParsed env j p k).2 =
          debugDumpEvents env dbg defn k
            ++ [HEvent.requireGenerator (generatorRequest p),
                HEvent.invokeValidateProfile]
            ++ evs)
    ∧ (∀ out o, pkg.validateProfile = none → pkg.generate defn p = .ok out →
        p.output = some o →
          (handleSwaggerParsed env j p k).1 = Except.ok ()
          ∧ HEvent.invokeValidateProfile ∉ (handleSwaggerParsed env j p k).2
          ∧ HEvent.writeArtifact
              (resolvePath currentDir (resolvePath currentDir o)) out
              ∈ (handleSwaggerParsed env j p k).2) := by
  have hunfold : handleSwaggerParsed env j p k =
      invokeGenerator pkg defn p k
        (debugDumpEvents env dbg defn k
          ++ [HEvent.requireGenerator (generatorRequest p)]) := by
    simp [handleSwaggerParsed, hparse, hdbg, hreq]
  refine ⟨?_, ?_, ?_⟩
  · intro vf e hvf hvp
    have hres : handleSwaggerParsed env j p k
        = (Except.error e,
           (debugDumpEvents env dbg defn k
              ++ [HEvent.requireGenerator (generatorRequest p)])
             ++ [HEvent.invokeValidateProfile]) := by
      rw [hunfold]
      simp [invokeGenerator, hvf, hvp]
    have h2 : (handleSwaggerParsed env j p k).2
        = (debugDumpEvents env dbg defn k
            ++ [HEvent.requireGenerator (generatorRequest p)])
           ++ [HEvent.invokeValidateProfile] := by rw [hres]
    refine ⟨by rw [hres], ?_, ?_⟩
    · rw [h2]
      intro hmem
      rcases List.mem_append.1 hmem with hmem | hmem
      · rcases List.mem_append.1 hmem with hmem | hmem
        · rcases debugDumpEvents_shape env dbg defn k _ hmem with ⟨a, b, hh⟩ | ⟨m, hh⟩ <;>
            cases hh
        · simp at hmem
      · simp at hmem
    · intro path c
      rw [h2]
      intro hmem
      rcases List.mem_append.1 hmem with hmem | hmem
      · rcases List.mem_append.1 hmem with hmem | hmem
        · rcases debugDumpEvents_shape env dbg defn k _ hmem with ⟨a, b, hh⟩ | ⟨m, hh⟩ <;>
            cases hh
        · simp at hmem
      · simp at hmem
  · intro vf hvf hvok
    rw [hunfold]
    simp only [invokeGenerator, hvf, hvok]
    unfold runGenerate
    cases hgen : pkg.generate defn p with
    | error e =>
      exact ⟨[HEvent.invokeGenerate], by simp⟩
    | ok out =>
      cases hout : p.output with
      | none => exact ⟨[HEvent.invokeGenerate], by simp⟩
      | some o =>
        refine ⟨[HEvent.invokeGenerate,
          HEvent.writeArtifact
            (resolvePath currentDir (resolvePath currentDir o)) out,
          HEvent.logInfo ("[" ++ k ++ "] Code generated at "
            ++ resolvePath currentDir o ++ ".")], by simp⟩
  · intro out o hnone hgen hout
    have hres : handleSwaggerParsed env j p k
        = (Except.ok (),
           (debugDumpEvents env dbg defn k
              ++ [HEvent.requireGenerator (generatorRequest p)])
             ++ [HEvent.invokeGenerate,
                 HEvent.writeArtifact
                   (resolvePath currentDir (resolvePath currentDir o)) out,
                 HEvent.logInfo ("[" ++ k ++ "] Code generated at "
                   ++ resolvePath currentDir o ++ ".")]) := by
      rw [hunfold]
      simp [invokeGenerator, hnone, runGenerate, hgen, hout]
    have h2 : (handleSwaggerParsed env j p k).2
        = (debugDumpEvents env dbg defn k
            ++ [HEvent.requireGenerator (generatorRequest p)])
           ++ [HEvent.invokeGenerate,
               HEvent.writeArtifact
                 (resolvePath currentDir (resolvePath currentDir o)) out,
               HEvent.logInfo ("[" ++ k ++ "] Code generated at "
                 ++ resolvePath currentDir o ++ ".")] := by rw [hres]
    refine ⟨by rw [hres], ?_, by rw [h2]; simp⟩
    rw [h2]
    intro hmem
    rcases List.mem_append.1 hmem with hmem | hmem
    · rcases List.mem_append.1 hmem with hmem | hmem
      · rcases debugDumpEvents_shape env dbg defn k _ hmem with ⟨a, b, hh⟩ | ⟨m, hh⟩ <;>
          cases hh
      · simp at hmem
    · simp at hmem

/-- Claim C9 witness: a hookless generator module generates and the
artifact write completes the profile. -/
theorem c9_generator_invoker_contract_witness :
    (handleSwaggerParsed envOk () { file := some "b.json", output := some "out.ts",
                                    generator := some "typescript",
                                    debug := some { } } "good").1 = Except.ok () :=
  ((c9_generator_invoker_contract envOk ()
      { file := some "b.json", output := some "out.ts",
        generator := some "typescript", debug := some { } }
      "good" () { generate := fun _ _ => Except.ok "generated-code" } { }
      rfl rfl rfl).2.2 "generated-code" "out.ts" rfl rfl rfl).1

/-- Claim C6: the assembled line sequence is the boilerplate lines, then
the service lines in their order, then exactly one separating blank line,
then the model lines in their order — never interleaved — the assembled
text is those lines joined with the platform line terminator, and equal
definitions assemble to byte-identical output. -/
theorem c6_assembler_ordering {D : Type} (gi gs gm : D → List String) (d : D) :
    (generatorIndexLines gi gs gm d).length
        = (gi d).length + (gs d).length + 1 + (gm d).length
    ∧ (∀ i, i < (gi d).length →
        (generatorIndexLines gi gs gm d)[i]? = (gi d)[i]?)
    ∧ (∀ i, i < (gs d).length →
        (generatorIndexLines gi gs gm d)[(gi d).length + i]? = (gs d)[i]?)
    ∧ (generatorIndexLines gi gs gm d)[(gi d).length + (gs d).length]? = some ""
    ∧ (∀ i, i < (gm d).length →
        (generatorIndexLines gi gs gm d)[(gi d).length + (gs d).length + 1 + i]?
          = (gm d)[i]?)
    ∧ generatorIndex gi gs gm d
        = String.intercalate newline (generatorIndexLines gi gs gm d)
    ∧ (∀ d2, d = d2 → generatorIndex gi gs gm d = generatorIndex gi gs gm d2) := by
  have hsplit : generatorIndexLines gi gs gm d = gi d ++ (gs d ++ ("" :: gm d)) := by
    simp [generatorIndexLines]
  refine ⟨?_, ?_, ?_, ?_, ?_, rfl, fun d2 h => by rw [h]⟩
  · rw [hsplit]
    simp
    omega
  · intro i hi
    rw [hsplit, List.getElem?_append_left hi]
  · intro i hi
    rw [hsplit, List.getElem?_append_right (by omega), Nat.add_sub_cancel_left,
      List.getElem?_append_left hi]
  · rw [hsplit, List.getElem?_append_right (by omega), Nat.add_sub_cancel_left,
      List.getElem?_append_right (by omega), Nat.sub_self, List.getElem?_cons_zero]
  · intro i hi
    rw [hsplit, List.getElem?_append_right (by omega)]
    have h1 : (gi d).length + (gs d).length + 1 + i - (gi d).length
        = (gs d).length + 1 + i := by omega
    rw [h1, List.getElem?_append_right (by omega)]
    have h2 : (gs d).length + 1 + i - (gs d).length = i + 1 := by omega
    rw [h2, List.getElem?_cons_succ]

/-- Claim C6 witness: concrete instance — one boilerplate line, two service
lines, one model line: five lines total and the blank separator sits at
index three. -/
theorem c6_assembler_ordering_witness :
    (generatorIndexLines (fun _ : Unit => ["head"]) (fun _ => ["svc1", "svc2"])
        (fun _ => ["model"]) ()).length = 5
    ∧ (generatorIndexLines (fun _ : Unit => ["head"]) (fun _ => ["svc1", "svc2"])
        (fun _ => ["model"]) ())[3]? = some "" :=
  ⟨(c6_assembler_ordering (fun _ : Unit => ["head"]) (fun _ => ["svc1", "svc2"])
      (fun _ => ["model"]) ()).1,
   (c6_assembler_ordering (fun _ : Unit => ["head"]) (fun _ => ["svc1", "svc2"])
      (fun _ => ["model"]) ()).2.2.2.1⟩
